import Mathlib

/-!
Verification of the financial-analyst assistant orchestrator.

This file gives a shallow embedding of the two source modules of the
repository (main.py and stream.py) and proves or refutes the frozen
claims about them.

The pure parts of the code (URL construction, the registry lookup, the
shape of the polling loop and of the batched tool-output submission) are
translated directly into Lean functions.  External collaborators (the
agent-session service, the HTTP client, the JSON decoder of the standard
library) are modelled as oracle fields of an environment record: the
loop only observes their results, so the environment supplies, for each
poll iteration, the retrieved run status, the pending tool calls, and
the outcome of decoding each argument string.

One detail of the source is load-bearing for several claims: the loop
binds the freshly retrieved run object to the variable runStatus, but
the branches handling the failed, queued, in_progress and unexpected
statuses test run.status, the status field of the stale run object
returned by the create call, which is never reassigned.  The embedding
keeps both: the polled status stream and the stale creation-time status
are separate inputs of the loop.
-/

namespace FinAnalyst

/-- A tool call issued by the agent: an identifier, a function name and
the raw JSON text of its argument object (main.py lines 296-299). -/
structure ToolCall where
  id : String
  name : String
  arguments : String
deriving DecidableEq

/-- A decoded JSON argument object, as produced by the JSON decoder:
an association list from argument keys to the rendering of their
values.  The decoder of the standard library never produces duplicate
keys. -/
abbrev JsonObj : Type := List (String × String)

/-- A tool output entry, as appended at main.py lines 304-309: the
identifier of the tool call it answers and the output string. -/
structure ToolOutput where
  tool_call_id : String
  output : String
deriving DecidableEq

/-- One batched submit_tool_outputs call (main.py lines 312-314),
recording at which poll iteration it happened and with which entries. -/
structure Submission where
  pollIndex : Nat
  outputs : List ToolOutput
deriving DecidableEq

/-- A message of the session, reduced to the list of renderings of its
content items; the code reads message.content[0].text.value
(main.py line 323). -/
structure Message where
  content : List String
deriving DecidableEq

/-- The exceptions the loop body can raise: a JSON decoding error from
json.loads on the argument text (main.py line 299), a TypeError from
calling a retrieval function with keyword arguments that do not match
its signature (main.py line 303), and an IndexError from reading
content[0] of a message with no content items (main.py line 323). -/
inductive Exn where
  | jsonDecodeError (arguments : String)
  | typeError (functionName : String)
  | indexError
deriving DecidableEq

/-- The observable outcome of run_assistant: a returned answer string,
the implicit None return of the break paths, an uncaught exception, or
still polling when the observation budget runs out (the source loop is
an unbounded while True). -/
inductive RunResult where
  | answer (text : String)
  | returnedNone
  | exn (e : Exn)
  | timeout
deriving DecidableEq

/-- The environment of one run_assistant invocation: the oracle view of
the agent-session service and of the external libraries.
pollStatus i is the status string retrieved at poll iteration i;
requiredActionPresent i models required_action not being None;
submitPresent i models the truthiness of required_action.submit_tool_outputs;
toolCalls i is the pending set at iteration i;
parseJson models json.loads (none means it raises);
callFn gives the string returned by a registered retrieval function on
decoded arguments (the function performs an HTTP GET and a JSON
round-trip, both external);
messages is the message list of the session as returned by the
platform at completion, most recently produced message first (the list
endpoint returns descending creation order by default). -/
structure Env where
  pollStatus : Nat → String
  requiredActionPresent : Nat → Bool
  submitPresent : Nat → Bool
  toolCalls : Nat → List ToolCall
  parseJson : String → Option JsonObj
  callFn : String → JsonObj → String
  messages : List Message

/-- The keys of the static registry available_functions
(main.py lines 154-161). -/
def available_functions : List String :=
  ["get_income_statement", "get_balance_sheet", "get_cash_flow_statement",
   "get_key_metrics", "get_financial_ratios", "get_financial_growth"]

/-- The parameter names of every retrieval function signature
(ticker, period, limit), all without default values
(main.py lines 33, 53, 73, 93, 113, 133). -/
def declaredParams : List String := ["ticker", "period", "limit"]

/-- Whether calling a retrieval function with the keyword arguments of
args succeeds: Python raises TypeError unless the key set equals the
declared parameter set (every key is a declared parameter and every
declared parameter is present, since none has a default). -/
def kwargsOk (args : JsonObj) : Bool :=
  (List.map Prod.fst args).all (fun key => declaredParams.contains key)
    && declaredParams.all (fun p => (List.map Prod.fst args).contains p)

/-- The body of the for loop over toolCalls (main.py lines 296-309):
decode the argument text (raising on malformed JSON, before the name is
looked up), then, only if the function name is a key of
available_functions, call the function (raising TypeError on a keyword
mismatch) and append a tool output carrying the identifier of the tool
call; an unregistered name is skipped with no output.  An error result
models an exception propagating out of the loop, in which case nothing
is submitted. -/
def processToolCalls (env : Env) : List ToolCall → Except Exn (List ToolOutput)
  | [] => Except.ok []
  | tc :: rest =>
    match env.parseJson tc.arguments with
    | Option.none => Except.error (Exn.jsonDecodeError tc.arguments)
    | Option.some args =>
      if available_functions.contains tc.name then
        if kwargsOk args then
          match processToolCalls env rest with
          | Except.error e => Except.error e
          | Except.ok outs =>
            Except.ok (ToolOutput.mk tc.id (env.callFn tc.name args) :: outs)
        else Except.error (Exn.typeError tc.name)
      else processToolCalls env rest

/-- The while True polling loop of run_assistant (main.py lines 278-338),
with an explicit fuel bound on the number of iterations observed.
initStatus is the status field of the stale run object returned by the
create call: the failed, queued/in_progress and unexpected-status
branches of the source test run.status, not the freshly polled
runStatus.status, and run is never reassigned.  The result pairs the
returned value with the list of batched submissions performed. -/
def runLoop (env : Env) (initStatus : String) :
    Nat → Nat → RunResult × List Submission
  | 0, _ => (RunResult.timeout, [])
  | fuel + 1, i =>
    if env.pollStatus i = "requires_action" ∧ env.requiredActionPresent i = true then
      if env.submitPresent i = true ∧ env.toolCalls i ≠ [] then
        match processToolCalls env (env.toolCalls i) with
        | Except.error e => (RunResult.exn e, [])
        | Except.ok outs =>
          let r := runLoop env initStatus fuel (i + 1)
          (r.1, Submission.mk i outs :: r.2)
      else runLoop env initStatus fuel (i + 1)
    else if env.pollStatus i = "completed" then
      match env.messages with
      | [] => (RunResult.returnedNone, [])
      | m :: _ =>
        match m.content with
        | [] => (RunResult.exn Exn.indexError, [])
        | c :: _ => (RunResult.answer c, [])
    else if initStatus = "failed" then (RunResult.returnedNone, [])
    else if initStatus = "in_progress" ∨ initStatus = "queued" then
      runLoop env initStatus fuel (i + 1)
    else (RunResult.returnedNone, [])

/-- The entry point run_assistant (main.py line 165): after the external
creation steps it enters the polling loop at iteration 0. -/
def run_assistant (env : Env) (initStatus : String) (fuel : Nat) :
    RunResult × List Submission :=
  runLoop env initStatus fuel 0

/-- The URL built by get_income_statement (main.py line 48).  The source
function reads the module-level FMP_API_KEY; its rendering is passed
here as the apikey argument.  The rest of the source function is the
external GET plus a JSON round-trip of the response body. -/
def get_income_statement_url (ticker period : String) (limit : Int)
    (apikey : String) : String :=
  "https://financialmodelingprep.com/api/v3/income-statement/" ++ ticker
    ++ "?period=" ++ period ++ "&limit=" ++ toString limit
    ++ "&apikey=" ++ apikey

/-- The URL built by get_balance_sheet (main.py line 68). -/
def get_balance_sheet_url (ticker period : String) (limit : Int)
    (apikey : String) : String :=
  "https://financialmodelingprep.com/api/v3/balance-sheet-statement/" ++ ticker
    ++ "?period=" ++ period ++ "&limit=" ++ toString limit
    ++ "&apikey=" ++ apikey

/-- The URL built by get_cash_flow_statement (main.py line 88). -/
def get_cash_flow_statement_url (ticker period : String) (limit : Int)
    (apikey : String) : String :=
  "https://financialmodelingprep.com/api/v3/cash-flow-statement/" ++ ticker
    ++ "?period=" ++ period ++ "&limit=" ++ toString limit
    ++ "&apikey=" ++ apikey

/-- The URL built by get_key_metrics (main.py line 108). -/
def get_key_metrics_url (ticker period : String) (limit : Int)
    (apikey : String) : String :=
  "https://financialmodelingprep.com/api/v3/key-metrics/" ++ ticker
    ++ "?period=" ++ period ++ "&limit=" ++ toString limit
    ++ "&apikey=" ++ apikey

/-- The URL built by get_financial_ratios (main.py line 128). -/
def get_financial_ratios_url (ticker period : String) (limit : Int)
    (apikey : String) : String :=
  "https://financialmodelingprep.com/api/v3/ratios/" ++ ticker
    ++ "?period=" ++ period ++ "&limit=" ++ toString limit
    ++ "&apikey=" ++ apikey

/-- The URL built by get_financial_growth (main.py line 148). -/
def get_financial_growth_url (ticker period : String) (limit : Int)
    (apikey : String) : String :=
  "https://financialmodelingprep.com/api/v3/cash-flow-statement-growth/" ++ ticker
    ++ "?period=" ++ period ++ "&limit=" ++ toString limit
    ++ "&apikey=" ++ apikey

/-- The common base of all six request URLs. -/
def fmpBase : String := "https://financialmodelingprep.com/api/v3/"

/-- Modelled from the spec: the query-parameter part shared by all six
operations, a single function of (period, limit, apikey). -/
def fmpQuery (period : String) (limit : Int) (apikey : String) : String :=
  "?period=" ++ period ++ "&limit=" ++ toString limit ++ "&apikey=" ++ apikey

/-- Modelled from the spec: the uniform adapter of section 2 of the
spec, fetch(segment, ticker, period, limit), whose request target is
the base, a path segment naming the statement type, the ticker, and the
shared query part. -/
def fmpUrl (segment ticker period : String) (limit : Int)
    (apikey : String) : String :=
  fmpBase ++ segment ++ "/" ++ ticker ++ fmpQuery period limit apikey

/-- When processing a batch raises no exception, the identifiers of the
collected tool outputs are exactly, in order, the identifiers of the
pending tool calls whose function name is a key of the registry
(helper). -/
theorem processToolCalls_ok_ids (env : Env) (l : List ToolCall)
    (outs : List ToolOutput) (h : processToolCalls env l = Except.ok outs) :
    outs.map ToolOutput.tool_call_id
      = (l.filter fun tc => available_functions.contains tc.name).map ToolCall.id := by
  induction l generalizing outs with
  | nil =>
    simp only [processToolCalls, Except.ok.injEq] at h
    subst h
    simp
  | cons tc rest ih =>
    cases hp : env.parseJson tc.arguments with
    | none => simp [processToolCalls, hp] at h
    | some args =>
      by_cases hn : tc.name ∈ available_functions
      · by_cases hk : kwargsOk args = true
        · cases hr : processToolCalls env rest with
          | error e => simp [processToolCalls, hp, hn, hk, hr] at h
          | ok outs2 =>
            simp [processToolCalls, hp, hn, hk, hr] at h
            subst h
            simp [List.filter_cons, hn, ih outs2 hr]
        · simp [processToolCalls, hp, hn, hk] at h
      · simp [processToolCalls, hp, hn] at h
        simpa [List.filter_cons, hn] using ih outs h

/-- Every submission recorded by the loop starting at iteration i
carries a poll index of at least i (helper). -/
theorem runLoop_submissions_ge (env : Env) (st : String) (fuel : Nat) :
    ∀ (i : Nat), ∀ sub ∈ (runLoop env st fuel i).2, i ≤ sub.pollIndex := by
  induction fuel with
  | zero => intro i sub hsub; simp [runLoop] at hsub
  | succ n ih =>
    intro i sub hsub
    simp only [runLoop] at hsub
    split at hsub
    · split at hsub
      · split at hsub
        · simp at hsub
        · simp only [List.mem_cons] at hsub
          rcases hsub with h | h
          · subst h; exact Nat.le_refl i
          · exact Nat.le_of_succ_le (ih (i + 1) sub h)
      · exact Nat.le_of_succ_le (ih (i + 1) sub hsub)
    · split at hsub
      · split at hsub
        · simp at hsub
        · split at hsub <;> simp at hsub
      · split at hsub
        · simp at hsub
        · split at hsub
          · exact Nat.le_of_succ_le (ih (i + 1) sub hsub)
          · simp at hsub

/-- If the polled status stream never shows requires_action nor
completed, and the stale creation-time status is queued, the loop never
terminates: every fuel bound is exhausted with nothing submitted
(helper). -/
theorem runLoop_spin (env : Env)
    (h : ∀ j, env.pollStatus j ≠ "requires_action" ∧ env.pollStatus j ≠ "completed")
    (fuel : Nat) :
    ∀ (i : Nat), runLoop env "queued" fuel i = (RunResult.timeout, []) := by
  induction fuel with
  | zero => intro i; rfl
  | succ n ih =>
    intro i
    simp [runLoop, (h i).1, (h i).2, ih]

/-- String concatenation is associative (helper for regrouping the
URL-building concatenations). -/
theorem str_append_assoc (a b c : String) : a ++ b ++ c = a ++ (b ++ c) := by
  rcases a with ⟨as⟩
  rcases b with ⟨bs⟩
  rcases c with ⟨cs⟩
  show String.mk (as ++ bs ++ cs) = String.mk (as ++ (bs ++ cs))
  rw [List.append_assoc]

/-- Any source URL whose leading literal is the base followed by a
segment and a slash factors through the uniform adapter fmpUrl. -/
theorem fmpUrl_factor (seg lit : String) (hlit : fmpBase ++ seg ++ "/" = lit)
    (t p : String) (l : Int) (k : String) :
    lit ++ t ++ "?period=" ++ p ++ "&limit=" ++ toString l ++ "&apikey=" ++ k
      = fmpUrl seg t p l k := by
  subst hlit
  simp [fmpUrl, fmpQuery, str_append_assoc]

/-- Claim C8 (confirmed): for every (ticker, period, limit) and any
rendering of the API key, each of the six data-retrieval operations
builds exactly the URL of the uniform adapter fmpUrl applied to its own
path segment: the six request targets differ only in the path segment
naming the statement type, and the query part (period, limit, apikey)
is the single shared function fmpQuery, identical in structure and
value across all six. -/
theorem six_urls_differ_only_in_segment (t p : String) (l : Int) (k : String) :
    get_income_statement_url t p l k = fmpUrl "income-statement" t p l k
    ∧ get_balance_sheet_url t p l k = fmpUrl "balance-sheet-statement" t p l k
    ∧ get_cash_flow_statement_url t p l k = fmpUrl "cash-flow-statement" t p l k
    ∧ get_key_metrics_url t p l k = fmpUrl "key-metrics" t p l k
    ∧ get_financial_ratios_url t p l k = fmpUrl "ratios" t p l k
    ∧ get_financial_growth_url t p l k = fmpUrl "cash-flow-statement-growth" t p l k :=
  ⟨fmpUrl_factor _ _ (by decide) t p l k,
   fmpUrl_factor _ _ (by decide) t p l k,
   fmpUrl_factor _ _ (by decide) t p l k,
   fmpUrl_factor _ _ (by decide) t p l k,
   fmpUrl_factor _ _ (by decide) t p l k,
   fmpUrl_factor _ _ (by decide) t p l k⟩

/-- The query tail renders a limit of 0 as the two characters
limit=0 (helper). -/
theorem query_tail_limit_zero (k : String) :
    "&limit=" ++ (toString (0 : Int) ++ ("&apikey=" ++ k))
      = "&limit=0&apikey=" ++ k := by
  rw [← str_append_assoc, ← str_append_assoc]
  exact congrArg (fun s => s ++ k) (by decide)

/-- A URL built at limit 0 spells the limit parameter as 0 verbatim
(helper). -/
theorem url_limit_zero (lit t p k : String) :
    lit ++ t ++ "?period=" ++ p ++ "&limit=" ++ toString (0 : Int)
        ++ "&apikey=" ++ k
      = lit ++ t ++ "?period=" ++ p ++ "&limit=0&apikey=" ++ k := by
  simp only [str_append_assoc, query_tail_limit_zero]

/-- Claim C9 (confirmed): every one of the six retrieval operations
forwards a caller-supplied limit of 0 exactly as the text 0 in its
request URL (no defaulting to a minimum of 1), and the URL embeds the
caller-supplied ticker, period and API-key strings verbatim: the
equations below exhibit the URL as the plain concatenation of the
unchanged arguments, so the adapter mutates none of them. -/
theorem limit_zero_forwarded_verbatim (t p k : String) :
    get_income_statement_url t p 0 k
      = "https://financialmodelingprep.com/api/v3/income-statement/" ++ t
          ++ "?period=" ++ p ++ "&limit=0&apikey=" ++ k
    ∧ get_balance_sheet_url t p 0 k
      = "https://financialmodelingprep.com/api/v3/balance-sheet-statement/" ++ t
          ++ "?period=" ++ p ++ "&limit=0&apikey=" ++ k
    ∧ get_cash_flow_statement_url t p 0 k
      = "https://financialmodelingprep.com/api/v3/cash-flow-statement/" ++ t
          ++ "?period=" ++ p ++ "&limit=0&apikey=" ++ k
    ∧ get_key_metrics_url t p 0 k
      = "https://financialmodelingprep.com/api/v3/key-metrics/" ++ t
          ++ "?period=" ++ p ++ "&limit=0&apikey=" ++ k
    ∧ get_financial_ratios_url t p 0 k
      = "https://financialmodelingprep.com/api/v3/ratios/" ++ t
          ++ "?period=" ++ p ++ "&limit=0&apikey=" ++ k
    ∧ get_financial_growth_url t p 0 k
      = "https://financialmodelingprep.com/api/v3/cash-flow-statement-growth/" ++ t
          ++ "?period=" ++ p ++ "&limit=0&apikey=" ++ k :=
  ⟨url_limit_zero _ t p k, url_limit_zero _ t p k, url_limit_zero _ t p k,
   url_limit_zero _ t p k, url_limit_zero _ t p k, url_limit_zero _ t p k⟩

/-- An environment whose polled status is constantly the given string,
with no pending actions and an empty session: it isolates the
status-dispatch branches of the loop. -/
def constEnv (status : String) : Env where
  pollStatus := fun _ => status
  requiredActionPresent := fun _ => false
  submitPresent := fun _ => false
  toolCalls := fun _ => []
  parseJson := fun _ => Option.none
  callFn := fun _ _ => ""
  messages := []

/-- A decoded argument object whose keys match the declared parameters
of every retrieval function. -/
def stdArgs : JsonObj :=
  [("ticker", "AAPL"), ("period", "annual"), ("limit", "4")]

/-- Environment for the C1 counterexample: the single pending tool call
of the first requires_action observation has a function name outside
the registry (its argument text decodes to an empty object), and the
next poll shows completed. -/
def envC1 : Env where
  pollStatus := fun i => if i = 0 then "requires_action" else "completed"
  requiredActionPresent := fun _ => true
  submitPresent := fun _ => true
  toolCalls := fun i =>
    if i = 0 then [ToolCall.mk "call_1" "get_stock_price" "argsEmpty"] else []
  parseJson := fun s => if s = "argsEmpty" then Option.some [] else Option.none
  callFn := fun _ _ => ""
  messages := [Message.mk ["done"]]

/-- Environment for the C1 witness: one pending tool call with a
registered name and well-formed arguments. -/
def envW1 : Env where
  pollStatus := fun i => if i = 0 then "requires_action" else "completed"
  requiredActionPresent := fun _ => true
  submitPresent := fun _ => true
  toolCalls := fun i =>
    if i = 0 then [ToolCall.mk "call_a" "get_income_statement" "argsGood"] else []
  parseJson := fun s => if s = "argsGood" then Option.some stdArgs else Option.none
  callFn := fun _ _ => "resp"
  messages := [Message.mk ["done"]]

/-- Environment for the C3 witness: completed at once, with a
two-message session, most recent first. -/
def envC3 : Env where
  pollStatus := fun _ => "completed"
  requiredActionPresent := fun _ => false
  submitPresent := fun _ => false
  toolCalls := fun _ => []
  parseJson := fun _ => Option.none
  callFn := fun _ _ => ""
  messages := [Message.mk ["final answer"], Message.mk ["older answer"]]

/-- Environment for the C4 counterexample: the single pending tool call
has an unregistered function name and an argument text on which the
JSON decoder raises. -/
def envC4 : Env where
  pollStatus := fun i => if i = 0 then "requires_action" else "completed"
  requiredActionPresent := fun _ => true
  submitPresent := fun _ => true
  toolCalls := fun i =>
    if i = 0 then [ToolCall.mk "call_bad" "get_stock_price" "badjson"] else []
  parseJson := fun _ => Option.none
  callFn := fun _ _ => ""
  messages := [Message.mk ["done"]]

/-- A resolvable tool call for the C4 witness. -/
def tcGoodW4 : ToolCall := ToolCall.mk "call_g" "get_balance_sheet" "argsGood"

/-- A tool call with an unregistered name (and decodable arguments) for
the C4 witness. -/
def tcBadW4 : ToolCall := ToolCall.mk "call_u" "get_stock_quote" "argsEmpty"

/-- Environment for the C4 witness. -/
def envW4 : Env where
  pollStatus := fun i => if i = 0 then "requires_action" else "completed"
  requiredActionPresent := fun _ => true
  submitPresent := fun _ => true
  toolCalls := fun i => if i = 0 then [tcGoodW4, tcBadW4] else []
  parseJson := fun s =>
    if s = "argsGood" then Option.some stdArgs
    else if s = "argsEmpty" then Option.some []
    else Option.none
  callFn := fun _ _ => "resp"
  messages := [Message.mk ["done"]]

/-- Environment for the C6 counterexample and witness: the single
pending tool call resolves to get_income_statement but its decoded
argument keys do not match the declared parameters. -/
def envC6 : Env where
  pollStatus := fun i => if i = 0 then "requires_action" else "completed"
  requiredActionPresent := fun _ => true
  submitPresent := fun _ => true
  toolCalls := fun i =>
    if i = 0 then [ToolCall.mk "call_2" "get_income_statement" "argsExtra"] else []
  parseJson := fun s =>
    if s = "argsExtra" then Option.some [("ticker", "AAPL"), ("shares", "10")]
    else Option.none
  callFn := fun _ _ => ""
  messages := [Message.mk ["done"]]

/-- Environment for the C7 witness: one resolvable pending call whose
output is submitted, then completion. -/
def envC7 : Env where
  pollStatus := fun i => if i = 0 then "requires_action" else "completed"
  requiredActionPresent := fun _ => true
  submitPresent := fun _ => true
  toolCalls := fun i =>
    if i = 0 then [ToolCall.mk "call_s" "get_key_metrics" "argsGood"] else []
  parseJson := fun s => if s = "argsGood" then Option.some stdArgs else Option.none
  callFn := fun _ _ => "resp"
  messages := [Message.mk ["done"]]

/-- Environment for the C10 witness: completed at once with an empty
message list. -/
def envC10 : Env where
  pollStatus := fun _ => "completed"
  requiredActionPresent := fun _ => false
  submitPresent := fun _ => false
  toolCalls := fun _ => []
  parseJson := fun _ => Option.none
  callFn := fun _ _ => ""
  messages := []

/-- Claim C1 (corrected), counterexample: at a requires_action
observation whose non-empty pending set consists of one tool call with
an unregistered function name, the loop issues its one batched
submission with zero entries, not one entry per pending tool call: the
batch for observation 0 is empty although the pending set observed
there has one element. -/
theorem submission_missing_entry_for_unregistered_call :
    (run_assistant envC1 "queued" 2).2 = [Submission.mk 0 []]
    ∧ (envC1.toolCalls 0).length = 1 := by
  constructor
  · decide
  · decide

/-- Claim C1 (corrected, amended): for every requires_action
observation with a non-empty pending set whose batch processing raises
no exception, the loop issues exactly one batched submission for that
observation, and the submitted batch contains exactly one entry per
pending tool call whose function name is a key of the static registry,
in order; pending calls with unregistered names contribute no entry. -/
theorem one_submission_per_requires_action (env : Env) (st : String)
    (fuel i : Nat) (outs : List ToolOutput)
    (h1 : env.pollStatus i = "requires_action")
    (h2 : env.requiredActionPresent i = true)
    (h3 : env.submitPresent i = true)
    (h4 : env.toolCalls i ≠ [])
    (h5 : processToolCalls env (env.toolCalls i) = Except.ok outs) :
    (runLoop env st (fuel + 1) i).2
        = Submission.mk i outs :: (runLoop env st fuel (i + 1)).2
    ∧ ((runLoop env st (fuel + 1) i).2.filter
        (fun sub => sub.pollIndex == i)).length = 1
    ∧ outs.map ToolOutput.tool_call_id
        = ((env.toolCalls i).filter
            (fun tc => available_functions.contains tc.name)).map ToolCall.id := by
  have hmain : (runLoop env st (fuel + 1) i).2
      = Submission.mk i outs :: (runLoop env st fuel (i + 1)).2 := by
    simp [runLoop, h1, h2, h3, h4, h5]
  refine ⟨hmain, ?_, processToolCalls_ok_ids env _ outs h5⟩
  rw [hmain]
  have hnil : (runLoop env st fuel (i + 1)).2.filter
      (fun sub => sub.pollIndex == i) = [] := by
    rw [List.filter_eq_nil_iff]
    intro sub hsub
    have hge := runLoop_submissions_ge env st fuel (i + 1) sub hsub
    simp only [beq_iff_eq]
    omega
  simp [List.filter_cons, hnil]

/-- Claim C1 witness: the amended theorem applied to a concrete
environment with one registered pending call. -/
theorem one_submission_per_requires_action_witness :
    (runLoop envW1 "queued" 2 0).2
        = Submission.mk 0 [ToolOutput.mk "call_a" "resp"]
            :: (runLoop envW1 "queued" 1 1).2
    ∧ ((runLoop envW1 "queued" 2 0).2.filter
        (fun sub => sub.pollIndex == 0)).length = 1
    ∧ [ToolOutput.mk "call_a" "resp"].map ToolOutput.tool_call_id
        = ((envW1.toolCalls 0).filter
            (fun tc => available_functions.contains tc.name)).map ToolCall.id :=
  one_submission_per_requires_action envW1 "queued" 1 0
    [ToolOutput.mk "call_a" "resp"]
    (by decide) (by decide) (by decide) (by decide) rfl

/-- The constant environment polls the same status at every iteration
(helper). -/
theorem constEnv_pollStatus (status : String) (j : Nat) :
    (constEnv status).pollStatus j = status := rfl

/-- Claim C2 (code_bug): the loop never reacts to a polled failed
status.  The failed branch of the source tests run.status, the stale
status of the run object from the create call (normally queued), not
the freshly polled runStatus.status.  First conjunct: with every poll
returning failed and the stale creation status queued, the loop spins
for ever (it exhausts any fuel bound, submitting nothing and signalling
nothing).  Second conjunct: even on the path the branch was meant for
(stale status failed), the entry point returns the implicit None of a
bare break, not a failure result. -/
theorem failed_status_polls_forever :
    (∀ fuel : Nat, run_assistant (constEnv "failed") "queued" fuel
        = (RunResult.timeout, []))
    ∧ run_assistant (constEnv "failed") "failed" 1
        = (RunResult.returnedNone, []) := by
  constructor
  · intro fuel
    apply runLoop_spin (constEnv "failed") ?_ fuel 0
    intro j
    rw [constEnv_pollStatus]
    exact ⟨by decide, by decide⟩
  · decide

/-- Claim C3 (confirmed): whenever the polled status is completed and
the fetched session message list (most recently produced first, the
order the platform returns) is non-empty with a textual first content
item, the loop returns the primary text content of the most recently
produced message and stops, having submitted nothing further. -/
theorem completed_returns_latest_message_text (env : Env) (st : String)
    (fuel i : Nat) (c : String) (cs : List String) (ms : List Message)
    (h1 : env.pollStatus i = "completed")
    (h2 : env.messages = Message.mk (c :: cs) :: ms) :
    runLoop env st (fuel + 1) i = (RunResult.answer c, []) := by
  simp [runLoop, h1, h2]

/-- Claim C3 witness: the theorem applied to a concrete completed
session with two messages, most recent first. -/
theorem completed_returns_latest_message_text_witness :
    runLoop envC3 "queued" 1 0 = (RunResult.answer "final answer", []) :=
  completed_returns_latest_message_text envC3 "queued" 0 0 "final answer" []
    [Message.mk ["older answer"]] rfl rfl

/-- Claim C4 (corrected), counterexample: a pending tool call whose
function name is outside the registry does crash the loop when its
argument text is not well-formed JSON, because json.loads runs before
the registry lookup: at this input the entry point ends in an uncaught
JSON decoding exception instead of skipping the call. -/
theorem unknown_name_with_bad_json_crashes :
    run_assistant envC4 "queued" 2
      = (RunResult.exn (Exn.jsonDecodeError "badjson"), []) := by
  decide

/-- Claim C4 (corrected, amended): for every tool call with an
unregistered function name whose argument text decodes as JSON,
processing of the batch skips that call, generates no tool output for
it, and behaves exactly as if the call were absent, so the remaining
resolvable calls are still executed and their outputs collected; only
a call whose arguments fail to decode crashes the loop (see the
counterexample). -/
theorem unregistered_call_skipped (env : Env) (l1 l2 : List ToolCall)
    (tc : ToolCall) (args : JsonObj)
    (hname : available_functions.contains tc.name = false)
    (hparse : env.parseJson tc.arguments = Option.some args) :
    processToolCalls env (l1 ++ tc :: l2) = processToolCalls env (l1 ++ l2) := by
  have hmem : tc.name ∉ available_functions := by simpa using hname
  induction l1 with
  | nil => simp [processToolCalls, hparse, hmem]
  | cons hd tl ih =>
    simp only [List.cons_append, processToolCalls, List.append_eq, ih]

/-- Claim C4 witness: the amended theorem applied to a batch holding a
resolvable call followed by an unregistered one. -/
theorem unregistered_call_skipped_witness :
    processToolCalls envW4 [tcGoodW4, tcBadW4]
      = processToolCalls envW4 [tcGoodW4] :=
  unregistered_call_skipped envW4 [tcGoodW4] [] tcBadW4 []
    (by decide) (by decide)

/-- Claim C5 (code_bug): the loop never reacts to a polled status
outside the known enumeration.  The unexpected-status branch of the
source tests the stale run.status of the created run object (normally
queued), not the freshly polled runStatus.status.  First conjunct: with
every poll returning cancelled and the stale creation status queued,
the loop spins for ever instead of logging and exiting.  Second
conjunct: the branch only fires when the stale creation-time status is
itself outside the enumeration, and then it logs that stale value and
returns the implicit None of a bare break. -/
theorem unknown_status_polls_forever :
    (∀ fuel : Nat, run_assistant (constEnv "cancelled") "queued" fuel
        = (RunResult.timeout, []))
    ∧ run_assistant (constEnv "cancelled") "expired" 1
        = (RunResult.returnedNone, []) := by
  constructor
  · intro fuel
    apply runLoop_spin (constEnv "cancelled") ?_ fuel 0
    intro j
    rw [constEnv_pollStatus]
    exact ⟨by decide, by decide⟩
  · decide

/-- Claim C6 (corrected), counterexample: a pending tool call resolving
to get_income_statement whose decoded argument keys do not match the
declared parameters (ticker, period, limit) makes the entry point end
in an uncaught TypeError: the exception crosses the system boundary
instead of surfacing as a discriminated failure result. -/
theorem mismatched_kwargs_exception_escapes :
    run_assistant envC6 "queued" 2
      = (RunResult.exn (Exn.typeError "get_income_statement"), []) := by
  decide

/-- Claim C6 (corrected, amended): failures do not all surface as a
discriminated result.  Whenever processing the pending batch of a
requires_action observation raises (malformed JSON arguments, or
argument keys not matching the declared parameters of the resolved
operation), the exception propagates out of the entry point uncaught
and nothing is submitted for that observation; there is no exception
handler anywhere on the path. -/
theorem batch_exception_escapes_uncaught (env : Env) (st : String)
    (fuel i : Nat) (e : Exn)
    (h1 : env.pollStatus i = "requires_action")
    (h2 : env.requiredActionPresent i = true)
    (h3 : env.submitPresent i = true)
    (h4 : env.toolCalls i ≠ [])
    (h5 : processToolCalls env (env.toolCalls i) = Except.error e) :
    runLoop env st (fuel + 1) i = (RunResult.exn e, []) := by
  simp [runLoop, h1, h2, h3, h4, h5]

/-- Claim C6 witness: the amended theorem applied to the concrete
environment of the counterexample. -/
theorem batch_exception_escapes_witness :
    runLoop envC6 "queued" 1 0
      = (RunResult.exn (Exn.typeError "get_income_statement"), []) :=
  batch_exception_escapes_uncaught envC6 "queued" 0 0
    (Exn.typeError "get_income_statement")
    (by decide) (by decide) (by decide) (by decide) rfl

/-- Claim C7 (confirmed): every tool output entry of every batch the
loop submits carries the identifier of some tool call in the pending
set of the requires_action observation it answers; no submitted entry
references an identifier absent from that pending set. -/
theorem submitted_ids_subset_of_pending (env : Env) (st : String)
    (fuel i : Nat) :
    ∀ sub ∈ (runLoop env st fuel i).2, ∀ o ∈ sub.outputs,
      o.tool_call_id ∈ (env.toolCalls sub.pollIndex).map ToolCall.id := by
  induction fuel generalizing i with
  | zero => intro sub hsub; simp [runLoop] at hsub
  | succ n ih =>
    intro sub hsub o ho
    simp only [runLoop] at hsub
    split at hsub
    · split at hsub
      · split at hsub
        · simp at hsub
        · rename_i outs hpt
          simp only [List.mem_cons] at hsub
          rcases hsub with h | h
          · subst h
            have hids := processToolCalls_ok_ids env _ outs hpt
            have hmem : o.tool_call_id ∈ outs.map ToolOutput.tool_call_id :=
              List.mem_map_of_mem _ ho
            rw [hids] at hmem
            exact List.map_subset ToolCall.id
              (List.Sublist.subset (List.filter_sublist _)) hmem
          · exact ih (i + 1) sub h o ho
      · exact ih (i + 1) sub hsub o ho
    · split at hsub
      · split at hsub
        · simp at hsub
        · split at hsub <;> simp at hsub
      · split at hsub
        · simp at hsub
        · split at hsub
          · exact ih (i + 1) sub hsub o ho
          · simp at hsub

/-- Claim C7 witness: the theorem applied to a concrete run that
submits one batch with one entry. -/
theorem submitted_ids_subset_witness :
    "call_s" ∈ (envC7.toolCalls 0).map ToolCall.id :=
  submitted_ids_subset_of_pending envC7 "queued" 2 0
    (Submission.mk 0 [ToolOutput.mk "call_s" "resp"]) (by decide)
    (ToolOutput.mk "call_s" "resp") (by decide)

/-- Claim C10 (confirmed): when the polled status is completed and the
fetched session message list is empty, the for loop over messages runs
zero iterations and the subsequent break leaves the function without a
return statement: the entry point yields the implicit None, raising
nothing and returning neither a text answer nor an error result. -/
theorem empty_messages_returns_none (env : Env) (st : String) (fuel i : Nat)
    (h1 : env.pollStatus i = "completed")
    (h2 : env.messages = []) :
    runLoop env st (fuel + 1) i = (RunResult.returnedNone, []) := by
  simp [runLoop, h1, h2]

/-- Claim C10 witness: the theorem applied to a concrete completed
session with no messages. -/
theorem empty_messages_returns_none_witness :
    runLoop envC10 "queued" 1 0 = (RunResult.returnedNone, []) :=
  empty_messages_returns_none envC10 "queued" 0 0 rfl rfl

end FinAnalyst
